import Mathlib

/-!
Shallow embedding of the e-commerce backend in `server.py` and verification of
its specification claims.

The server keeps all persistent data in a document store with six collections
(`users`, `products`, `categories`, `carts`, `orders`, `site_settings`).  We
model the store as explicit lists of documents and every route handler as a
pure function from a `DBState` (plus the request data and the values that the
runtime supplies: fresh ids, the current time, the authenticated token
payload) to a result paired with the next `DBState`.  HTTP failures
(`HTTPException(status_code, detail)`) become `Except HTTPError` results; an
error result is always paired with the state the handler left behind, so
"store unchanged on failure" is a provable statement, not a modelling
artefact.

External collaborators are parameters:
* bcrypt hashing (`pwd_context.hash` / `pwd_context.verify`) is passed in as
  functions `hp : String → String` and `vp : String → String → Bool`;
* `uuid.uuid4()` is a supply `gen : Nat → String`;
* timestamps (`datetime.now(...)`) are explicit arguments, seconds since the
  epoch as a `Nat` for JWT expiry arithmetic and an opaque string for the
  `created_at` / `updated_at` isoformat fields.
-/

namespace Shop

/-- `HTTPException(status_code=..., detail=...)` raised by the handlers. -/
structure HTTPError where
  status_code : Nat
  detail : String
deriving Repr, DecidableEq

/-- A stored user document: the `User` model dump plus the `password_hash`
field that `signup` / `initialize_data` add before insertion. -/
structure UserDoc where
  id : String
  email : String
  name : String
  role : String
  created_at : String
  password_hash : String
deriving Repr, DecidableEq

/-- The `Product` model.  `price` is a decimal, modelled as `Rat`.
The documents seeded by `initialize_data` carry no `created_at` key; we model
that missing field as the empty string. -/
structure Product where
  id : String
  name : String
  description : String
  price : Rat
  category : String
  image : String
  stock : Nat
  featured : Bool
  created_at : String
deriving Repr, DecidableEq

/-- Request body of `POST /products` and `PUT /products/{id}`. -/
structure ProductCreate where
  name : String
  description : String
  price : Rat
  category : String
  image : String
  stock : Nat
  featured : Bool
deriving Repr, DecidableEq

/-- The `Category` model. -/
structure Category where
  id : String
  name : String
  slug : String
  image : String
  description : String
deriving Repr, DecidableEq

/-- Request body of category create/update. -/
structure CategoryCreate where
  name : String
  slug : String
  image : String
  description : String
deriving Repr, DecidableEq

/-- One cart line item. -/
structure CartItem where
  product_id : String
  quantity : Nat
deriving Repr, DecidableEq

/-- The `Cart` model: this is both the stored document and the request body of
`POST /cart` (the handler takes a full `Cart`, whose `user_id` comes from the
request body, and whose `updated_at` is stamped at parse time). -/
structure Cart where
  user_id : String
  items : List CartItem
  updated_at : String
deriving Repr, DecidableEq

/-- One order line item (name and price snapshotted by the caller). -/
structure OrderItem where
  product_id : String
  product_name : String
  quantity : Nat
  price : Rat
deriving Repr, DecidableEq

/-- The `Order` model.  `address` is a free-form key/value map. -/
structure Order where
  id : String
  user_id : String
  items : List OrderItem
  total : Rat
  address : List (String × String)
  payment_method : String
  status : String
  created_at : String
deriving Repr, DecidableEq

/-- Request body of `POST /orders`. -/
structure OrderCreate where
  items : List OrderItem
  total : Rat
  address : List (String × String)
  payment_method : String
deriving Repr, DecidableEq

/-- The singleton `SiteSettings` document. -/
structure SiteSettings where
  theme_colors : List (String × String)
  payment_methods : List (String × Bool)
deriving Repr, DecidableEq

/-- The whole document store: one list of documents per collection, in the
store's natural order (inserts append). -/
structure DBState where
  users : List UserDoc
  products : List Product
  categories : List Category
  carts : List Cart
  orders : List Order
  site_settings : List SiteSettings
deriving Repr, DecidableEq

/-! ## Token service (`create_token` / `get_current_user`) -/

/-- `JWT_SECRET` (the environment default from `server.py`). -/
def JWT_SECRET : String := "your-secret-key-change-in-production"

/-- The JWT claims that `create_token` embeds: identity fields plus the
absolute expiry `exp`, in seconds since the epoch. -/
structure TokenPayload where
  user_id : String
  email : String
  role : String
  exp : Nat
deriving Repr, DecidableEq

/-- The HMAC that `jwt.encode` computes over the payload with the shared
secret, modelled as an injective tagging of secret and claims. -/
def mac (secret : String) (p : TokenPayload) : String :=
  secret ++ "|" ++ p.user_id ++ "|" ++ p.email ++ "|" ++ p.role ++ "|" ++ toString p.exp

/-- A token as produced by `jwt.encode`: the claims together with the
signature computed from the signing secret. -/
structure SignedToken where
  payload : TokenPayload
  signature : String
deriving Repr, DecidableEq

/-- The two PyJWT failures `get_current_user` distinguishes.
`expiredSignature` is `jwt.ExpiredSignatureError`, `invalidToken` is any other
`jwt.InvalidTokenError`. -/
inductive JwtError where
  | expiredSignature
  | invalidToken
deriving Repr, DecidableEq

/-- `create_token(user_id, email, role)`: claims with
`exp = now + timedelta(days=7)` (7 days = 604800 seconds), signed with
`JWT_SECRET`. -/
def create_token (now : Nat) (user_id email role : String) : SignedToken :=
  let payload : TokenPayload := ⟨user_id, email, role, now + 7 * 86400⟩
  ⟨payload, mac JWT_SECRET payload⟩

/-- `jwt.decode(token, secret, ...)`: verifies the signature, then the `exp`
claim (PyJWT raises `ExpiredSignatureError` when `exp <= now`, leeway 0). -/
def jwtDecode (token : SignedToken) (secret : String) (now : Nat) :
    Except JwtError TokenPayload :=
  if token.signature ≠ mac secret token.payload then .error .invalidToken
  else if token.payload.exp ≤ now then .error .expiredSignature
  else .ok token.payload

/-- `get_current_user`: decodes the bearer token with `JWT_SECRET`, mapping
`ExpiredSignatureError` to 401 "Token expired" and `InvalidTokenError` to
401 "Invalid token". -/
def get_current_user (token : SignedToken) (now : Nat) :
    Except HTTPError TokenPayload :=
  match jwtDecode token JWT_SECRET now with
  | .ok payload => .ok payload
  | .error .expiredSignature => .error ⟨401, "Token expired"⟩
  | .error .invalidToken => .error ⟨401, "Invalid token"⟩

/-- `get_admin_user`: 403 unless the authenticated payload's role is
"admin". -/
def get_admin_user (current_user : TokenPayload) : Except HTTPError TokenPayload :=
  if current_user.role ≠ "admin" then .error ⟨403, "Admin access required"⟩
  else .ok current_user

/-! ## Auth flows (`signup`, `login`) -/

/-- `db.users.find_one({"email": email})`: first stored user with that email
(exact, case-sensitive comparison). -/
def find_one_user_by_email (users : List UserDoc) (email : String) : Option UserDoc :=
  users.find? (fun u => u.email == email)

/-- `POST /auth/signup`.  `hp` is `hash_password` (bcrypt), `freshId` the
generated uuid, `nowStr` the `created_at` timestamp, `nowSec` the clock used
for the token expiry. -/
def signup (hp : String → String) (freshId nowStr : String) (nowSec : Nat)
    (st : DBState) (email password name : String) :
    Except HTTPError (SignedToken × UserDoc) × DBState :=
  match find_one_user_by_email st.users email with
  | some _ => (.error ⟨400, "Email already registered"⟩, st)
  | none =>
    let user : UserDoc := ⟨freshId, email, name, "user", nowStr, hp password⟩
    let token := create_token nowSec user.id user.email user.role
    (.ok (token, user), { st with users := st.users ++ [user] })

/-- `POST /auth/login`.  `vp` is `verify_password` (bcrypt verification). -/
def login (vp : String → String → Bool) (nowSec : Nat) (st : DBState)
    (email password : String) :
    Except HTTPError (SignedToken × UserDoc) × DBState :=
  match find_one_user_by_email st.users email with
  | none => (.error ⟨401, "Invalid credentials"⟩, st)
  | some user_doc =>
    if ¬ vp password user_doc.password_hash then
      (.error ⟨401, "Invalid credentials"⟩, st)
    else
      (.ok (create_token nowSec user_doc.id user_doc.email user_doc.role, user_doc), st)

/-! ## Document-store primitives

`update_one(filter, {"$set": ...})` updates the first matching document and
reports whether one matched; `delete_one(filter)` removes the first matching
document.  `updateFirst` returns `none` when nothing matched
(`matched_count == 0`). -/

/-- Apply `f` to the first element satisfying `pred`; `none` if no element
does. -/
def updateFirst {α : Type} (pred : α → Bool) (f : α → α) : List α → Option (List α)
  | [] => none
  | x :: xs =>
    if pred x then some (f x :: xs)
    else (updateFirst pred f xs).map (fun ys => x :: ys)

/-- Remove the first element satisfying `pred` (`delete_one`); the list is
unchanged when nothing matches (`deleted_count == 0`). -/
def deleteFirst {α : Type} (pred : α → Bool) : List α → List α
  | [] => []
  | x :: xs => if pred x then xs else x :: deleteFirst pred xs

/-! ## Catalog service (`/products`, `/categories`) -/

/-- Case-insensitive substring test: `hay` matched by the regex `needle` with
option `i`, for a literal pattern. -/
def containsCI (hay needle : String) : Bool :=
  let h := hay.toLower.data
  let n := needle.toLower.data
  (List.range (h.length + 1)).any (fun i => n.isPrefixOf (h.drop i))

/-- The Mongo query document built by `get_products`: an optional exact
`category` condition and an optional case-insensitive `$regex` condition on
`name`. -/
structure ProductQuery where
  category : Option String
  name_regex_ci : Option String
deriving Repr, DecidableEq

/-- Whether a product document matches the query: all present conditions must
hold. -/
def matchesProductQuery (q : ProductQuery) (p : Product) : Bool :=
  (match q.category with
   | some c => p.category == c
   | none => true)
  &&
  (match q.name_regex_ci with
   | some s => containsCI p.name s
   | none => true)

/-- `GET /products`.  Python truthiness: `if category:` / `if search:` add the
condition only for a non-`None`, non-empty string.  The result is
`find(query).to_list(1000)`: matching documents in store order, capped at
1000. -/
def get_products (st : DBState) (category search : Option String) : List Product :=
  let query : ProductQuery :=
    { category :=
        match category with
        | some c => if c ≠ "" then some c else none
        | none => none,
      name_regex_ci :=
        match search with
        | some s => if s ≠ "" then some s else none
        | none => none }
  ((st.products.filter (matchesProductQuery query)).take 1000)

/-- `POST /products` (admin only): build a `Product` from the body with a
fresh id and timestamp and insert it. -/
def create_product (admin : TokenPayload) (pd : ProductCreate)
    (freshId nowStr : String) (st : DBState) :
    Except HTTPError Product × DBState :=
  match get_admin_user admin with
  | .error e => (.error e, st)
  | .ok _ =>
    let product : Product :=
      ⟨freshId, pd.name, pd.description, pd.price, pd.category, pd.image,
       pd.stock, pd.featured, nowStr⟩
    (.ok product, { st with products := st.products ++ [product] })

/-- The `$set` of `PUT /products/{id}`: overwrite the body fields, keep `id`
and `created_at`. -/
def setProductFields (pd : ProductCreate) (p : Product) : Product :=
  { p with name := pd.name, description := pd.description, price := pd.price,
           category := pd.category, image := pd.image, stock := pd.stock,
           featured := pd.featured }

/-- `PUT /products/{id}` (admin only): 404 when no document matched, else
re-read and return the updated document.  (The re-read cannot fail after a
successful match; the 500 arm models the server error a failed model
validation would raise.) -/
def update_product (admin : TokenPayload) (product_id : String)
    (pd : ProductCreate) (st : DBState) :
    Except HTTPError Product × DBState :=
  match get_admin_user admin with
  | .error e => (.error e, st)
  | .ok _ =>
    match updateFirst (fun p => p.id == product_id) (setProductFields pd) st.products with
    | none => (.error ⟨404, "Product not found"⟩, st)
    | some products' =>
      match products'.find? (fun p => p.id == product_id) with
      | some updated => (.ok updated, { st with products := products' })
      | none => (.error ⟨500, "Internal Server Error"⟩, { st with products := products' })

/-- `DELETE /products/{id}` (admin only): 404 when nothing was deleted. -/
def delete_product (admin : TokenPayload) (product_id : String) (st : DBState) :
    Except HTTPError String × DBState :=
  match get_admin_user admin with
  | .error e => (.error e, st)
  | .ok _ =>
    if (st.products.find? (fun p => p.id == product_id)).isNone then
      (.error ⟨404, "Product not found"⟩, st)
    else
      (.ok "Product deleted",
       { st with products := deleteFirst (fun p => p.id == product_id) st.products })

/-- `POST /categories` (admin only). -/
def create_category (admin : TokenPayload) (cd : CategoryCreate)
    (freshId : String) (st : DBState) :
    Except HTTPError Category × DBState :=
  match get_admin_user admin with
  | .error e => (.error e, st)
  | .ok _ =>
    let category : Category := ⟨freshId, cd.name, cd.slug, cd.image, cd.description⟩
    (.ok category, { st with categories := st.categories ++ [category] })

/-- The `$set` of `PUT /categories/{id}`: overwrite the body fields, keep
`id`. -/
def setCategoryFields (cd : CategoryCreate) (c : Category) : Category :=
  { c with name := cd.name, slug := cd.slug, image := cd.image,
           description := cd.description }

/-- `PUT /categories/{id}` (admin only). -/
def update_category (admin : TokenPayload) (category_id : String)
    (cd : CategoryCreate) (st : DBState) :
    Except HTTPError Category × DBState :=
  match get_admin_user admin with
  | .error e => (.error e, st)
  | .ok _ =>
    match updateFirst (fun c => c.id == category_id) (setCategoryFields cd) st.categories with
    | none => (.error ⟨404, "Category not found"⟩, st)
    | some categories' =>
      match categories'.find? (fun c => c.id == category_id) with
      | some updated => (.ok updated, { st with categories := categories' })
      | none => (.error ⟨500, "Internal Server Error"⟩, { st with categories := categories' })

/-- `DELETE /categories/{id}` (admin only). -/
def delete_category (admin : TokenPayload) (category_id : String) (st : DBState) :
    Except HTTPError String × DBState :=
  match get_admin_user admin with
  | .error e => (.error e, st)
  | .ok _ =>
    if (st.categories.find? (fun c => c.id == category_id)).isNone then
      (.error ⟨404, "Category not found"⟩, st)
    else
      (.ok "Category deleted",
       { st with categories := deleteFirst (fun c => c.id == category_id) st.categories })

/-! ## Cart service (`GET /cart`, `POST /cart`) -/

/-- What `GET /cart` returns: either the stored cart document or the
non-persisted empty view `{"user_id": ..., "items": []}` (which has no
`updated_at` key, hence a distinct constructor). -/
inductive CartView where
  | stored (cart : Cart)
  | empty (user_id : String)
deriving Repr, DecidableEq

/-- `GET /cart`: `find_one({"user_id": current_user["user_id"]})`; the empty
view when no document matches.  Reads only; the state is unchanged. -/
def get_cart (current_user : TokenPayload) (st : DBState) : CartView :=
  match st.carts.find? (fun c => c.user_id == current_user.user_id) with
  | some cart => .stored cart
  | none => .empty current_user.user_id

/-- `update_one({"user_id": uid}, {"$set": cart_data.model_dump()},
upsert=True)` on the carts collection.  The `$set` covers every `Cart` field
(including `user_id`, taken from the request body), so a matched document is
fully replaced by `doc`; on upsert the inserted document is the filter's
equality field overridden by the `$set`, i.e. again exactly `doc`. -/
def updateOneUpsertCart (uid : String) (doc : Cart) : List Cart → List Cart
  | [] => [doc]
  | c :: cs => if c.user_id == uid then doc :: cs else c :: updateOneUpsertCart uid doc cs

/-- `POST /cart`: upsert keyed on the authenticated identity's `user_id`,
storing the request body verbatim, and echo the body back. -/
def update_cart (current_user : TokenPayload) (cart_data : Cart) (st : DBState) :
    Except HTTPError Cart × DBState :=
  (.ok cart_data,
   { st with carts := updateOneUpsertCart current_user.user_id cart_data st.carts })

/-! ## Order service (`/orders`, `/admin/orders`) -/

/-- `POST /orders`: build the order (`user_id` from the identity, status
defaulting to "pending", the body fields verbatim), insert it, then
`delete_one` the user's cart. -/
def create_order (current_user : TokenPayload) (od : OrderCreate)
    (freshId nowStr : String) (st : DBState) :
    Except HTTPError Order × DBState :=
  let order : Order :=
    ⟨freshId, current_user.user_id, od.items, od.total, od.address,
     od.payment_method, "pending", nowStr⟩
  (.ok order,
   { st with orders := st.orders ++ [order],
             carts := deleteFirst (fun c => c.user_id == current_user.user_id) st.carts })

/-- Insertion sort by `created_at` descending, modelling
`sort("created_at", -1)`. -/
def insertByCreatedAtDesc (o : Order) : List Order → List Order
  | [] => [o]
  | x :: xs =>
    if x.created_at ≤ o.created_at then o :: x :: xs
    else x :: insertByCreatedAtDesc o xs

/-- Sort a list of orders by `created_at` descending. -/
def sortByCreatedAtDesc : List Order → List Order
  | [] => []
  | x :: xs => insertByCreatedAtDesc x (sortByCreatedAtDesc xs)

/-- `GET /orders`: the identity's own orders, newest first, capped at 100. -/
def get_orders (current_user : TokenPayload) (st : DBState) : List Order :=
  ((sortByCreatedAtDesc (st.orders.filter
      (fun o => o.user_id == current_user.user_id))).take 100)

/-- `GET /admin/orders` (admin only): all orders, newest first, capped at
1000. -/
def get_all_orders (admin : TokenPayload) (st : DBState) :
    Except HTTPError (List Order) × DBState :=
  match get_admin_user admin with
  | .error e => (.error e, st)
  | .ok _ => (.ok ((sortByCreatedAtDesc st.orders).take 1000), st)

/-- `PUT /admin/orders/{order_id}` (admin only):
`update_one({"id": order_id}, {"$set": {"status": status}})`; 404 when no
order matched. -/
def update_order_status (admin : TokenPayload) (order_id status : String)
    (st : DBState) : Except HTTPError String × DBState :=
  match get_admin_user admin with
  | .error e => (.error e, st)
  | .ok _ =>
    match updateFirst (fun o => o.id == order_id)
        (fun o => { o with status := status }) st.orders with
    | none => (.error ⟨404, "Order not found"⟩, st)
    | some orders' => (.ok "Order updated", { st with orders := orders' })

/-! ## Users listing, settings, seed loader -/

/-- The public projection `{"_id": 0, "password_hash": 0}` of a user
document. -/
structure PublicUser where
  id : String
  email : String
  name : String
  role : String
  created_at : String
deriving Repr, DecidableEq

/-- Strip the password hash from a stored user document. -/
def publicView (u : UserDoc) : PublicUser :=
  ⟨u.id, u.email, u.name, u.role, u.created_at⟩

/-- `GET /admin/users` (admin only): every user, hash excluded, capped at
1000. -/
def get_all_users (admin : TokenPayload) (st : DBState) :
    Except HTTPError (List PublicUser) × DBState :=
  match get_admin_user admin with
  | .error e => (.error e, st)
  | .ok _ => (.ok ((st.users.map publicView).take 1000), st)

/-- `PUT /admin/settings` (admin only): `update_one({}, {"$set": dump},
upsert=True)` — the empty filter matches the first settings document; the
`$set` covers both fields, so that document is replaced, or inserted when the
collection is empty. -/
def update_settings (admin : TokenPayload) (settings : SiteSettings) (st : DBState) :
    Except HTTPError SiteSettings × DBState :=
  match get_admin_user admin with
  | .error e => (.error e, st)
  | .ok _ =>
    match st.site_settings with
    | [] => (.ok settings, { st with site_settings := [settings] })
    | _ :: rest => (.ok settings, { st with site_settings := settings :: rest })

/-- The six baseline categories inserted by `initialize_data`, ids drawn from
the uuid supply `gen`. -/
def baselineCategories (gen : Nat → String) : List Category :=
  [⟨gen 1, "Electronics", "electronics",
    "https://images.unsplash.com/photo-1605170876472-db58e15c430e?crop=entropy&cs=srgb&fm=jpg&q=85",
    "Latest gadgets and tech"⟩,
   ⟨gen 2, "Accessories", "accessories",
    "https://images.unsplash.com/photo-1673997303871-178507ca875a?crop=entropy&cs=srgb&fm=jpg&q=85",
    "Fashion accessories"⟩,
   ⟨gen 3, "Kitchen", "kitchen",
    "https://images.unsplash.com/photo-1556911220-bff31c812dba?crop=entropy&cs=srgb&fm=jpg&q=85",
    "Kitchen essentials"⟩,
   ⟨gen 4, "Furniture", "furniture",
    "https://images.unsplash.com/photo-1723804685588-b8e95b2044f3?crop=entropy&cs=srgb&fm=jpg&q=85",
    "Modern furniture"⟩,
   ⟨gen 5, "Fashion", "fashion",
    "https://images.unsplash.com/photo-1542755687-a33ff0c970ec?crop=entropy&cs=srgb&fm=jpg&q=85",
    "Trendy clothing"⟩,
   ⟨gen 6, "Others", "others",
    "https://images.unsplash.com/photo-1550989460-0adf9ea622e2?crop=entropy&cs=srgb&fm=jpg&q=85",
    "Miscellaneous items"⟩]

/-- The thirty baseline products inserted by `initialize_data`.  The seeded
dicts carry no `created_at` key; the missing field is modelled as `""`. -/
def baselineProducts (gen : Nat → String) : List Product :=
  [⟨gen 7, "Wireless Headphones", "Premium noise-canceling headphones", 199.99, "electronics",
    "https://images.unsplash.com/photo-1505740420928-5e560c06d30e?w=500", 50, true, ""⟩,
   ⟨gen 8, "Smart Watch", "Fitness tracking smartwatch", 299.99, "electronics",
    "https://images.unsplash.com/photo-1523275335684-37898b6baf30?w=500", 30, true, ""⟩,
   ⟨gen 9, "Laptop Stand", "Ergonomic aluminum laptop stand", 49.99, "electronics",
    "https://images.unsplash.com/photo-1527864550417-7fd91fc51a46?w=500", 100, false, ""⟩,
   ⟨gen 10, "Mechanical Keyboard", "RGB gaming keyboard", 129.99, "electronics",
    "https://images.unsplash.com/photo-1587829741301-dc798b83add3?w=500", 45, true, ""⟩,
   ⟨gen 11, "Wireless Mouse", "Ergonomic wireless mouse", 39.99, "electronics",
    "https://images.unsplash.com/photo-1527814050087-3793815479db?w=500", 80, false, ""⟩,
   ⟨gen 12, "Leather Wallet", "Genuine leather bifold wallet", 59.99, "accessories",
    "https://images.unsplash.com/photo-1627123424574-724758594e93?w=500", 60, true, ""⟩,
   ⟨gen 13, "Sunglasses", "Classic aviator sunglasses", 89.99, "accessories",
    "https://images.unsplash.com/photo-1572635196237-14b3f281503f?w=500", 70, false, ""⟩,
   ⟨gen 14, "Backpack", "Durable travel backpack", 79.99, "accessories",
    "https://images.unsplash.com/photo-1553062407-98eeb64c6a62?w=500", 40, true, ""⟩,
   ⟨gen 15, "Coffee Maker", "Automatic drip coffee maker", 149.99, "kitchen",
    "https://images.unsplash.com/photo-1517668808822-9ebb02f2a0e6?w=500", 25, false, ""⟩,
   ⟨gen 16, "Blender", "High-speed professional blender", 99.99, "kitchen",
    "https://images.unsplash.com/photo-1585515320310-259814833e62?w=500", 35, true, ""⟩,
   ⟨gen 17, "Knife Set", "Professional chef knife set", 159.99, "kitchen",
    "https://images.unsplash.com/photo-1593618998160-e34014e67546?w=500", 20, false, ""⟩,
   ⟨gen 18, "Office Chair", "Ergonomic mesh office chair", 349.99, "furniture",
    "https://images.unsplash.com/photo-1580480055273-228ff5388ef8?w=500", 15, true, ""⟩,
   ⟨gen 19, "Standing Desk", "Adjustable height standing desk", 499.99, "furniture",
    "https://images.unsplash.com/photo-1595515106969-1ce29566ff1c?w=500", 10, true, ""⟩,
   ⟨gen 20, "Bookshelf", "Modern 5-tier bookshelf", 199.99, "furniture",
    "https://images.unsplash.com/photo-1594620302200-9a762244a156?w=500", 18, false, ""⟩,
   ⟨gen 21, "T-Shirt", "Cotton casual t-shirt", 29.99, "fashion",
    "https://images.unsplash.com/photo-1521572163474-6864f9cf17ab?w=500", 100, false, ""⟩,
   ⟨gen 22, "Jeans", "Classic slim fit jeans", 79.99, "fashion",
    "https://images.unsplash.com/photo-1542272604-787c3835535d?w=500", 90, true, ""⟩,
   ⟨gen 23, "Sneakers", "Comfortable running sneakers", 119.99, "fashion",
    "https://images.unsplash.com/photo-1460353581641-37baddab0fa2?w=500", 50, true, ""⟩,
   ⟨gen 24, "Hoodie", "Warm pullover hoodie", 69.99, "fashion",
    "https://images.unsplash.com/photo-1556821840-3a63f95609a7?w=500", 65, false, ""⟩,
   ⟨gen 25, "Phone Case", "Protective silicone phone case", 19.99, "others",
    "https://images.unsplash.com/photo-1601784551446-20c9e07cdbdb?w=500", 150, false, ""⟩,
   ⟨gen 26, "Water Bottle", "Insulated stainless steel bottle", 34.99, "others",
    "https://images.unsplash.com/photo-1602143407151-7111542de6e8?w=500", 120, false, ""⟩,
   ⟨gen 27, "Yoga Mat", "Non-slip exercise yoga mat", 44.99, "others",
    "https://images.unsplash.com/photo-1601925260368-ae2f83cf8b7f?w=500", 75, true, ""⟩,
   ⟨gen 28, "Desk Lamp", "LED adjustable desk lamp", 54.99, "others",
    "https://images.unsplash.com/photo-1507473885765-e6ed057f782c?w=500", 55, false, ""⟩,
   ⟨gen 29, "Power Bank", "20000mAh portable charger", 49.99, "electronics",
    "https://images.unsplash.com/photo-1609091839311-d5365f9ff1c5?w=500", 85, false, ""⟩,
   ⟨gen 30, "USB-C Cable", "Fast charging USB-C cable", 14.99, "electronics",
    "https://images.unsplash.com/photo-1625948515291-69613efd103f?w=500", 200, false, ""⟩,
   ⟨gen 31, "Webcam", "1080p HD streaming webcam", 89.99, "electronics",
    "https://images.unsplash.com/photo-1588508065123-287b28e013da?w=500", 40, true, ""⟩,
   ⟨gen 32, "Microphone", "USB condenser microphone", 129.99, "electronics",
    "https://images.unsplash.com/photo-1590602847861-f357a9332bbc?w=500", 30, false, ""⟩,
   ⟨gen 33, "Monitor", "27-inch 4K monitor", 399.99, "electronics",
    "https://images.unsplash.com/photo-1527443224154-c4a3942d3acf?w=500", 20, true, ""⟩,
   ⟨gen 34, "Tablet", "10-inch Android tablet", 299.99, "electronics",
    "https://images.unsplash.com/photo-1561154464-82e9adf32764?w=500", 25, true, ""⟩,
   ⟨gen 35, "Gaming Mouse Pad", "Extended RGB mouse pad", 29.99, "electronics",
    "https://images.unsplash.com/photo-1615663245857-ac93bb7c39e7?w=500", 95, false, ""⟩,
   ⟨gen 36, "Speaker System", "2.1 desktop speaker system", 149.99, "electronics",
    "https://images.unsplash.com/photo-1608043152269-423dbba4e7e1?w=500", 35, false, ""⟩]

/-- `POST /init-data`: insert a default admin account unless a user with
email "admin@shop.com" exists; bulk-insert the baseline categories when
`count_documents({}) == 0` on categories; likewise for products.  `hp` is the
bcrypt hash, `gen` the uuid supply, `nowStr` the admin's `created_at`. -/
def initialize_data (hp : String → String) (gen : Nat → String) (nowStr : String)
    (st : DBState) : DBState :=
  let st1 :=
    if (find_one_user_by_email st.users "admin@shop.com").isSome then st
    else { st with users :=
            st.users ++ [⟨gen 0, "admin@shop.com", "Admin", "admin", nowStr, hp "admin123"⟩] }
  let st2 :=
    if st1.categories.length = 0 then
      { st1 with categories := st1.categories ++ baselineCategories gen }
    else st1
  if st2.products.length = 0 then
    { st2 with products := st2.products ++ baselineProducts gen }
  else st2

/-! ## Fixtures for concrete evaluations -/

/-- The empty document store. -/
def emptyDB : DBState := ⟨[], [], [], [], [], []⟩

/-- A sample non-admin token payload. -/
def sampleUserPayload : TokenPayload := ⟨"u1", "alice@shop.com", "user", 604800⟩

/-- A sample product-create body. -/
def sampleProductCreate : ProductCreate := ⟨"Mouse", "A mouse", 10, "electronics", "img", 5, false⟩

/-- A sample category-create body. -/
def sampleCategoryCreate : CategoryCreate := ⟨"Electronics", "electronics", "img", "gadgets"⟩

/-- A sample order-create body. -/
def sampleOrderCreate : OrderCreate := ⟨[⟨"p1", "Mouse", 2, 10⟩], 20, [("city", "Rome")], "cod"⟩

/-- A sample stored user document, password hash as produced by the toy hash
`fun p => "h:" ++ p` on "pw". -/
def sampleUserDoc : UserDoc := ⟨"u1", "alice@shop.com", "Alice", "user", "t0", "h:pw"⟩

/-- A store holding just `sampleUserDoc`. -/
def oneUserDB : DBState := ⟨[sampleUserDoc], [], [], [], [], []⟩

/-- A sample admin token payload. -/
def sampleAdminPayload : TokenPayload := ⟨"a1", "admin@shop.com", "admin", 604800⟩

/-- A store holding a single cart for user "u1". -/
def oneCartDB : DBState := ⟨[], [], [], [⟨"u1", [⟨"p1", 2⟩], "t0"⟩], [], []⟩

/-- A cart request body whose `user_id` agrees with `sampleUserPayload`. -/
def sampleCartBody : Cart := ⟨"u1", [⟨"p2", 1⟩], "t5"⟩

/-- A cart request body whose `user_id` differs from `sampleUserPayload`. -/
def mismatchedCartBody : Cart := ⟨"u2", [⟨"p2", 1⟩], "t5"⟩

/-- A sample stored order. -/
def sampleOrder : Order := ⟨"o1", "u1", [⟨"p1", "Mouse", 2, 10⟩], 20, [("city", "Rome")], "cod", "pending", "t0"⟩

/-- A store holding just `sampleOrder`. -/
def oneOrderDB : DBState := ⟨[], [], [], [], [sampleOrder], []⟩

/-! ## Helper lemmas on the store primitives -/

theorem deleteFirst_of_no_match {α : Type} (p : α → Bool) (l : List α)
    (h : ∀ x ∈ l, p x = false) : deleteFirst p l = l := by
  induction l with
  | nil => rfl
  | cons x xs ih =>
    have hx := h x (List.mem_cons_self x xs)
    simp [deleteFirst, hx]
    exact ih (fun y hy => h y (List.mem_cons_of_mem x hy))

theorem countP_eq_zero_of_all_false {α : Type} (p : α → Bool) (l : List α)
    (h : ∀ x ∈ l, p x = false) : l.countP p = 0 := by
  rw [List.countP_eq_zero]
  intro x hx
  simp [h x hx]

theorem all_false_of_countP_eq_zero {α : Type} (p : α → Bool) (l : List α)
    (h : l.countP p = 0) : ∀ x ∈ l, p x = false := by
  rw [List.countP_eq_zero] at h
  intro x hx
  simpa using h x hx

theorem deleteFirst_all_false_of_countP_le_one {α : Type} (p : α → Bool) (l : List α)
    (h : l.countP p ≤ 1) : ∀ x ∈ deleteFirst p l, p x = false := by
  induction l with
  | nil => intro x hx; simp [deleteFirst] at hx
  | cons y ys ih =>
    by_cases hy : p y
    · have hcount : ys.countP p = 0 := by
        have hpos := List.countP_cons_of_pos (p := p) (l := ys) hy
        omega
      intro x hx
      simp [deleteFirst, hy] at hx
      exact all_false_of_countP_eq_zero p ys hcount x hx
    · have hcount : ys.countP p ≤ 1 := by
        have hneg := List.countP_cons_of_neg (p := p) (l := ys) hy
        omega
      intro x hx
      simp [deleteFirst, hy] at hx
      rcases hx with hx | hx
      · simpa [hx] using hy
      · exact ih hcount x hx

theorem find?_eq_none_of_all_false {α : Type} (p : α → Bool) (l : List α)
    (h : ∀ x ∈ l, p x = false) : l.find? p = none := by
  rw [List.find?_eq_none]
  intro x hx
  simp [h x hx]

theorem updateFirst_eq_none_of_all_false {α : Type} (p : α → Bool) (f : α → α)
    (l : List α) (h : ∀ x ∈ l, p x = false) : updateFirst p f l = none := by
  induction l with
  | nil => rfl
  | cons x xs ih =>
    have hx := h x (List.mem_cons_self x xs)
    simp [updateFirst, hx]
    exact ih (fun y hy => h y (List.mem_cons_of_mem x hy))

theorem updateFirst_append_match {α : Type} (p : α → Bool) (f : α → α)
    (pre : List α) (o : α) (post : List α)
    (hpre : ∀ x ∈ pre, p x = false) (ho : p o = true) :
    updateFirst p f (pre ++ o :: post) = some (pre ++ f o :: post) := by
  induction pre with
  | nil => simp [updateFirst, ho]
  | cons x xs ih =>
    have hx := hpre x (List.mem_cons_self x xs)
    simp [updateFirst, hx]
    exact ih (fun y hy => hpre y (List.mem_cons_of_mem x hy))

/-! ## Claim theorems -/

/-- Claim C1: a token issued by `create_token` decodes successfully in
`get_current_user` to the same `user_id`, `email` and `role` as long as the
clock is before the embedded 7-day expiry, and fails with the 401
"Token expired" error once the clock reaches or passes that expiry. -/
theorem c1_token_roundtrip_until_expiry (user_id email role : String) (t0 t : Nat) :
    (t < t0 + 7 * 86400 →
      get_current_user (create_token t0 user_id email role) t =
        .ok ⟨user_id, email, role, t0 + 7 * 86400⟩) ∧
    (t0 + 7 * 86400 ≤ t →
      get_current_user (create_token t0 user_id email role) t =
        .error ⟨401, "Token expired"⟩) := by
  constructor
  · intro h
    simp [get_current_user, jwtDecode, create_token, Nat.not_le.mpr h]
  · intro h
    simp [get_current_user, jwtDecode, create_token, h]

/-- Witness for C1: a token issued at time 0 decodes at 604799 seconds and is
expired at 604800 seconds. -/
theorem c1_token_roundtrip_until_expiry_witness :
    get_current_user (create_token 0 "u1" "alice@shop.com" "user") 604799 =
      .ok ⟨"u1", "alice@shop.com", "user", 0 + 7 * 86400⟩ ∧
    get_current_user (create_token 0 "u1" "alice@shop.com" "user") 604800 =
      .error ⟨401, "Token expired"⟩ :=
  ⟨(c1_token_roundtrip_until_expiry "u1" "alice@shop.com" "user" 0 604799).1 (by decide),
   (c1_token_roundtrip_until_expiry "u1" "alice@shop.com" "user" 0 604800).2 (by decide)⟩

/-- Claim C2: the two `login` failure cases — no stored user with the email,
and a stored user whose password hash does not verify — both return the very
same 401 "Invalid credentials" error with the store unchanged, so the error
does not reveal which case occurred. -/
theorem c2_login_uniform_error (vp : String → String → Bool) (nowSec : Nat)
    (st : DBState) (email password : String) :
    (find_one_user_by_email st.users email = none →
      login vp nowSec st email password = (.error ⟨401, "Invalid credentials"⟩, st)) ∧
    (∀ u, find_one_user_by_email st.users email = some u →
      vp password u.password_hash = false →
      login vp nowSec st email password = (.error ⟨401, "Invalid credentials"⟩, st)) := by
  constructor
  · intro h
    simp [login, h]
  · intro u hu hv
    simp [login, hu, hv]

/-- Witness for C2: with a toy bcrypt (`vp p h := h == "h:" ++ p`), logging in
with an unknown email and logging in with Alice's email but the wrong
password produce the identical error. -/
theorem c2_login_uniform_error_witness :
    login (fun p h => h == "h:" ++ p) 0 oneUserDB "nobody@shop.com" "pw" =
      (.error ⟨401, "Invalid credentials"⟩, oneUserDB) ∧
    login (fun p h => h == "h:" ++ p) 0 oneUserDB "alice@shop.com" "wrong" =
      (.error ⟨401, "Invalid credentials"⟩, oneUserDB) :=
  ⟨(c2_login_uniform_error (fun p h => h == "h:" ++ p) 0 oneUserDB "nobody@shop.com" "pw").1
     (by decide),
   (c2_login_uniform_error (fun p h => h == "h:" ++ p) 0 oneUserDB "alice@shop.com" "wrong").2
     sampleUserDoc (by decide) (by decide)⟩

/-- Claim C3: `get_admin_user` passes an identity through exactly when its
role is "admin", and every admin-only operation (product create/update/delete,
category create/update/delete, list all orders, update order status, list all
users, update settings) invoked with a non-admin identity fails with the 403
"Admin access required" error and leaves the store unchanged. -/
theorem c3_admin_only_guard (u : TokenPayload) (st : DBState)
    (pd : ProductCreate) (cd : CategoryCreate)
    (pid cid oid s fid ns : String) (settings : SiteSettings) :
    (get_admin_user u = .ok u ↔ u.role = "admin") ∧
    (u.role ≠ "admin" →
      create_product u pd fid ns st = (.error ⟨403, "Admin access required"⟩, st) ∧
      update_product u pid pd st = (.error ⟨403, "Admin access required"⟩, st) ∧
      delete_product u pid st = (.error ⟨403, "Admin access required"⟩, st) ∧
      create_category u cd fid st = (.error ⟨403, "Admin access required"⟩, st) ∧
      update_category u cid cd st = (.error ⟨403, "Admin access required"⟩, st) ∧
      delete_category u cid st = (.error ⟨403, "Admin access required"⟩, st) ∧
      get_all_orders u st = (.error ⟨403, "Admin access required"⟩, st) ∧
      update_order_status u oid s st = (.error ⟨403, "Admin access required"⟩, st) ∧
      get_all_users u st = (.error ⟨403, "Admin access required"⟩, st) ∧
      update_settings u settings st = (.error ⟨403, "Admin access required"⟩, st)) := by
  constructor
  · constructor
    · intro h
      by_contra hne
      simp [get_admin_user, hne] at h
    · intro h
      simp [get_admin_user, h]
  · intro hrole
    have hguard : get_admin_user u = .error ⟨403, "Admin access required"⟩ := by
      simp [get_admin_user, hrole]
    refine ⟨?_, ?_, ?_, ?_, ?_, ?_, ?_, ?_, ?_, ?_⟩ <;>
      simp [create_product, update_product, delete_product, create_category,
        update_category, delete_category, get_all_orders, update_order_status,
        get_all_users, get_all_users, update_settings, hguard]

/-- Witness for C3: a role-"user" identity is rejected by every admin
operation on the empty store. -/
theorem c3_admin_only_guard_witness :
    (get_admin_user sampleUserPayload = .ok sampleUserPayload ↔
      sampleUserPayload.role = "admin") ∧
    update_order_status sampleUserPayload "o1" "shipped" emptyDB =
      (.error ⟨403, "Admin access required"⟩, emptyDB) ∧
    create_product sampleUserPayload sampleProductCreate "p1" "t1" emptyDB =
      (.error ⟨403, "Admin access required"⟩, emptyDB) := by
  have h := c3_admin_only_guard sampleUserPayload emptyDB sampleProductCreate
    sampleCategoryCreate "p1" "c1" "o1" "shipped" "p1" "t1" ⟨[], []⟩
  have h2 := h.2 (by decide)
  exact ⟨h.1, h2.2.2.2.2.2.2.2.1, h2.1⟩

/-- Claim C4: when some stored user already has the submitted email, `signup`
fails with the 400 "Email already registered" error and leaves the whole
store (in particular the users collection) unchanged; the result is the same
constant for every submitted password and name. -/
theorem c4_signup_duplicate_email (hp : String → String) (fid ns : String)
    (nt : Nat) (st : DBState) (email password name : String) (u : UserDoc)
    (hu : u ∈ st.users) (he : u.email = email) :
    signup hp fid ns nt st email password name =
      (.error ⟨400, "Email already registered"⟩, st) := by
  have hsome : (st.users.find? (fun v => v.email == email)).isSome := by
    rw [List.find?_isSome]
    exact ⟨u, hu, by simp [he]⟩
  obtain ⟨w, hw⟩ := Option.isSome_iff_exists.mp hsome
  simp [signup, find_one_user_by_email, hw]

/-- Witness for C4: signing up again with Alice's email fails and leaves the
store unchanged. -/
theorem c4_signup_duplicate_email_witness :
    signup (fun p => "h:" ++ p) "u2" "t1" 0 oneUserDB "alice@shop.com" "other" "Mallory" =
      (.error ⟨400, "Email already registered"⟩, oneUserDB) :=
  c4_signup_duplicate_email (fun p => "h:" ++ p) "u2" "t1" 0 oneUserDB
    "alice@shop.com" "other" "Mallory" sampleUserDoc
    (by simp [oneUserDB]) (by decide)

/-- Claim C5: `get_products` returns exactly the stored products, capped at
1000, whose category equals the given non-empty category string and whose
name contains the given non-empty search string case-insensitively; with only
one filter present only that condition applies, and with neither every
product (up to the cap) is returned. -/
theorem c5_get_products_filters (st : DBState) (c s : String)
    (hc : c ≠ "") (hs : s ≠ "") :
    get_products st (some c) (some s) =
      (st.products.filter (fun p => p.category == c && containsCI p.name s)).take 1000 ∧
    get_products st (some c) none =
      (st.products.filter (fun p => p.category == c)).take 1000 ∧
    get_products st none (some s) =
      (st.products.filter (fun p => containsCI p.name s)).take 1000 ∧
    get_products st none none = st.products.take 1000 := by
  have h1 : st.products.filter (matchesProductQuery ⟨some c, some s⟩) =
      st.products.filter (fun p => p.category == c && containsCI p.name s) :=
    List.filter_congr (fun p _ => by simp [matchesProductQuery])
  have h2 : st.products.filter (matchesProductQuery ⟨some c, none⟩) =
      st.products.filter (fun p => p.category == c) :=
    List.filter_congr (fun p _ => by simp [matchesProductQuery])
  have h3 : st.products.filter (matchesProductQuery ⟨none, some s⟩) =
      st.products.filter (fun p => containsCI p.name s) :=
    List.filter_congr (fun p _ => by simp [matchesProductQuery])
  have h4 : st.products.filter (matchesProductQuery ⟨none, none⟩) =
      st.products.filter (fun _ => true) :=
    List.filter_congr (fun p _ => by simp [matchesProductQuery])
  refine ⟨?_, ?_, ?_, ?_⟩
  · simp only [get_products, hc, ne_eq, not_false_eq_true, if_true, hs]
    rw [h1]
  · simp only [get_products, hc, ne_eq, not_false_eq_true, if_true]
    rw [h2]
  · simp only [get_products, hs, ne_eq, not_false_eq_true, if_true]
    rw [h3]
  · simp only [get_products]
    rw [h4, List.filter_true]

/-- Witness for C5: on a two-product store, filtering by category
"electronics" and search "MOUSE" keeps exactly the wireless mouse. -/
theorem c5_get_products_filters_witness :
    get_products ⟨[], [⟨"p1", "Wireless Mouse", "d", 10, "electronics", "i", 5, false, "t"⟩,
        ⟨"p2", "Blender", "d", 20, "kitchen", "i", 5, false, "t"⟩], [], [], [], []⟩
      (some "electronics") (some "MOUSE") =
      ([⟨"p1", "Wireless Mouse", "d", 10, "electronics", "i", 5, false, "t"⟩,
        ⟨"p2", "Blender", "d", 20, "kitchen", "i", 5, false, "t"⟩].filter
        (fun p => p.category == "electronics" && containsCI p.name "MOUSE")).take 1000 :=
  (c5_get_products_filters
    ⟨[], [⟨"p1", "Wireless Mouse", "d", 10, "electronics", "i", 5, false, "t"⟩,
      ⟨"p2", "Blender", "d", 20, "kitchen", "i", 5, false, "t"⟩], [], [], [], []⟩
    "electronics" "MOUSE" (by decide) (by decide)).1

/-! ## Lemmas about the cart upsert -/

theorem mem_updateOneUpsertCart (uid : String) (doc : Cart) (l : List Cart) :
    doc ∈ updateOneUpsertCart uid doc l := by
  induction l with
  | nil => simp [updateOneUpsertCart]
  | cons c cs ih =>
    by_cases hc : (c.user_id == uid) = true
    · simp [updateOneUpsertCart, hc]
    · simp only [updateOneUpsertCart, hc, if_false, Bool.false_eq_true, ite_false]
      exact List.mem_cons_of_mem c ih

theorem upsert_find (uid : String) (doc : Cart) (l : List Cart)
    (h : l.countP (fun c => c.user_id == uid) ≤ 1) :
    (updateOneUpsertCart uid doc l).find? (fun c => c.user_id == uid) =
      if doc.user_id == uid then some doc else none := by
  induction l with
  | nil =>
    cases hdoc : (doc.user_id == uid) <;>
      simp [updateOneUpsertCart, List.find?, hdoc]
  | cons c cs ih =>
    by_cases hc : (c.user_id == uid) = true
    · have hcs : cs.countP (fun c => c.user_id == uid) = 0 := by
        have hpos := List.countP_cons_of_pos (p := fun c => c.user_id == uid) (l := cs) hc
        omega
      have hnone : cs.find? (fun c => c.user_id == uid) = none :=
        find?_eq_none_of_all_false _ _ (all_false_of_countP_eq_zero _ _ hcs)
      cases hdoc : (doc.user_id == uid) <;>
        simp [updateOneUpsertCart, hc, List.find?, hdoc, hnone]
    · have hcs : cs.countP (fun c => c.user_id == uid) ≤ 1 := by
        have hneg := List.countP_cons_of_neg (p := fun c => c.user_id == uid) (l := cs)
          (a := c) (by simp [hc])
        omega
      simp only [updateOneUpsertCart, hc, if_false, Bool.false_eq_true, ite_false]
      have hfind : List.find? (fun x => x.user_id == uid) (c :: updateOneUpsertCart uid doc cs) =
          List.find? (fun x => x.user_id == uid) (updateOneUpsertCart uid doc cs) :=
        List.find?_cons_of_neg _ hc
      rw [hfind]
      exact ih hcs

theorem upsert_countP_le_one (uid : String) (doc : Cart) (l : List Cart)
    (h : l.countP (fun c => c.user_id == uid) ≤ 1) :
    (updateOneUpsertCart uid doc l).countP (fun c => c.user_id == uid) ≤ 1 := by
  induction l with
  | nil =>
    cases hdoc : (doc.user_id == uid) <;>
      simp [updateOneUpsertCart, List.countP_cons, hdoc]
  | cons c cs ih =>
    by_cases hc : (c.user_id == uid) = true
    · have hcs : cs.countP (fun c => c.user_id == uid) = 0 := by
        have hpos := List.countP_cons_of_pos (p := fun c => c.user_id == uid) (l := cs) hc
        omega
      simp only [updateOneUpsertCart, hc, if_true, ite_true]
      rw [List.countP_cons]
      split <;> omega
    · have hcs : cs.countP (fun c => c.user_id == uid) ≤ 1 := by
        have hneg := List.countP_cons_of_neg (p := fun c => c.user_id == uid) (l := cs)
          (a := c) (by simp [hc])
        omega
      simp only [updateOneUpsertCart, hc, if_false, Bool.false_eq_true, ite_false]
      rw [List.countP_cons, if_neg hc]
      have hrec := ih hcs
      omega

theorem put_cart_read (u : TokenPayload) (body : Cart) (st : DBState)
    (h : st.carts.countP (fun c => c.user_id == u.user_id) ≤ 1) :
    get_cart u (update_cart u body st).2 =
      (if body.user_id == u.user_id then CartView.stored body
       else CartView.empty u.user_id) := by
  simp only [get_cart, update_cart]
  rw [upsert_find _ _ _ h]
  cases hdoc : (body.user_id == u.user_id) <;> simp [hdoc]

/-- Claim C6: a `create_order` call appends exactly one order — `user_id`
from the identity, status "pending", the submitted items, total, address and
payment method stored verbatim — and deletes the identity's cart document, so
a subsequent `get_cart` for that identity yields the empty view; when the
identity has no cart the call still succeeds and the cart collection is
untouched. -/
theorem c6_create_order_clears_cart (u : TokenPayload) (od : OrderCreate)
    (fid ns : String) (st : DBState)
    (h : st.carts.countP (fun c => c.user_id == u.user_id) ≤ 1) :
    (create_order u od fid ns st).1 =
      .ok ⟨fid, u.user_id, od.items, od.total, od.address, od.payment_method, "pending", ns⟩ ∧
    (create_order u od fid ns st).2.orders =
      st.orders ++ [⟨fid, u.user_id, od.items, od.total, od.address, od.payment_method,
        "pending", ns⟩] ∧
    get_cart u (create_order u od fid ns st).2 = .empty u.user_id ∧
    ((∀ c ∈ st.carts, (c.user_id == u.user_id) = false) →
      (create_order u od fid ns st).2.carts = st.carts) := by
  refine ⟨rfl, rfl, ?_, ?_⟩
  · simp only [get_cart, create_order]
    rw [find?_eq_none_of_all_false _ _ (deleteFirst_all_false_of_countP_le_one _ _ h)]
  · intro hall
    simp only [create_order]
    exact deleteFirst_of_no_match _ _ hall

/-- Witness for C6: ordering from a store with one non-empty cart for "u1"
succeeds and leaves "u1" with the empty cart view. -/
theorem c6_create_order_clears_cart_witness :
    (create_order sampleUserPayload sampleOrderCreate "o2" "t1" oneCartDB).1 =
      .ok ⟨"o2", "u1", sampleOrderCreate.items, sampleOrderCreate.total,
        sampleOrderCreate.address, sampleOrderCreate.payment_method, "pending", "t1"⟩ ∧
    get_cart sampleUserPayload
      (create_order sampleUserPayload sampleOrderCreate "o2" "t1" oneCartDB).2 =
      .empty "u1" := by
  have h := c6_create_order_clears_cart sampleUserPayload sampleOrderCreate "o2" "t1"
    oneCartDB (by decide)
  exact ⟨h.1, h.2.2.1⟩

/-- Claim C7: `update_cart` is idempotent under repeated identical calls —
for any identity with at most one stored cart document, reading the cart
after `n ≥ 1` identical `update_cart` calls equals reading it after one. -/
theorem c7_put_cart_idempotent (u : TokenPayload) (body : Cart) (st : DBState)
    (h : st.carts.countP (fun c => c.user_id == u.user_id) ≤ 1)
    (n : Nat) (hn : 1 ≤ n) :
    get_cart u ((fun s => (update_cart u body s).2)^[n] st) =
      get_cart u (update_cart u body st).2 := by
  have hinv : ∀ m, ((fun s => (update_cart u body s).2)^[m] st).carts.countP
      (fun c => c.user_id == u.user_id) ≤ 1 := by
    intro m
    induction m with
    | zero => simpa using h
    | succ k ihk =>
      rw [Function.iterate_succ_apply']
      simpa [update_cart] using upsert_countP_le_one u.user_id body _ ihk
  obtain ⟨m, rfl⟩ : ∃ m, n = m + 1 := ⟨n - 1, by omega⟩
  rw [Function.iterate_succ_apply']
  show get_cart u (update_cart u body ((fun s => (update_cart u body s).2)^[m] st)).2 = _
  rw [put_cart_read u body _ (hinv m), put_cart_read u body st h]

/-- Witness for C7: three identical cart writes read back the same as one. -/
theorem c7_put_cart_idempotent_witness :
    get_cart sampleUserPayload
      ((fun s => (update_cart sampleUserPayload sampleCartBody s).2)^[3] oneCartDB) =
      get_cart sampleUserPayload (update_cart sampleUserPayload sampleCartBody oneCartDB).2 :=
  c7_put_cart_idempotent sampleUserPayload sampleCartBody oneCartDB (by decide) 3 (by decide)

/-- Claim C8: `update_order_status` (called by an admin) overwrites only the
`status` field of the first order whose id matches, leaving that order's
other fields, all other orders and all other collections unchanged, and fails
with the 404 "Order not found" error — store unchanged — when no order has
that id. -/
theorem c8_update_order_status_frame (u : TokenPayload) (oid s : String)
    (st : DBState) (hadmin : u.role = "admin") :
    ((∀ o ∈ st.orders, o.id ≠ oid) →
      update_order_status u oid s st = (.error ⟨404, "Order not found"⟩, st)) ∧
    (∀ pre o post, st.orders = pre ++ o :: post →
      (∀ o' ∈ pre, o'.id ≠ oid) → o.id = oid →
      update_order_status u oid s st =
        (.ok "Order updated",
         { st with orders := pre ++ { o with status := s } :: post })) := by
  have hguard : get_admin_user u = .ok u := by simp [get_admin_user, hadmin]
  constructor
  · intro hnone
    simp only [update_order_status, hguard]
    rw [updateFirst_eq_none_of_all_false _ _ _ (fun x hx => by simp [hnone x hx])]
  · intro pre o post hsplit hpre ho
    simp only [update_order_status, hguard]
    rw [hsplit, updateFirst_append_match _ _ _ _ _ (fun x hx => by simp [hpre x hx])
      (by simp [ho])]

/-- Witness for C8: on a store with one pending order "o1", updating a
missing id fails with 404 and updating "o1" rewrites only its status. -/
theorem c8_update_order_status_frame_witness :
    update_order_status sampleAdminPayload "nope" "shipped" oneOrderDB =
      (.error ⟨404, "Order not found"⟩, oneOrderDB) ∧
    update_order_status sampleAdminPayload "o1" "shipped" oneOrderDB =
      (.ok "Order updated",
       { oneOrderDB with orders := [] ++ { sampleOrder with status := "shipped" } :: [] }) := by
  refine ⟨?_, ?_⟩
  · exact (c8_update_order_status_frame sampleAdminPayload "nope" "shipped" oneOrderDB
      (by decide)).1 (by decide)
  · exact (c8_update_order_status_frame sampleAdminPayload "o1" "shipped" oneOrderDB
      (by decide)).2 [] sampleOrder [] (by decide) (by decide) (by decide)

/-- Claim C10: `update_cart` keys the upsert on the authenticated identity's
`user_id` but stores the request body's `user_id` verbatim; when these
differ, the stored document carries the body's `user_id` and a subsequent
`get_cart` for the identity returns the empty view rather than the items just
written. -/
theorem c10_cart_stores_body_user_id (u : TokenPayload) (body : Cart) (st : DBState)
    (h : st.carts.countP (fun c => c.user_id == u.user_id) ≤ 1)
    (hne : body.user_id ≠ u.user_id) :
    body ∈ (update_cart u body st).2.carts ∧
    get_cart u (update_cart u body st).2 = .empty u.user_id := by
  constructor
  · simpa [update_cart] using mem_updateOneUpsertCart u.user_id body st.carts
  · rw [put_cart_read u body st h]
    simp [hne]

/-- Witness for C10: writing a body with `user_id` "u2" while authenticated
as "u1" stores the "u2" document and makes "u1"'s cart read back empty. -/
theorem c10_cart_stores_body_user_id_witness :
    mismatchedCartBody ∈ (update_cart sampleUserPayload mismatchedCartBody oneCartDB).2.carts ∧
    get_cart sampleUserPayload
      (update_cart sampleUserPayload mismatchedCartBody oneCartDB).2 = .empty "u1" :=
  c10_cart_stores_body_user_id sampleUserPayload mismatchedCartBody oneCartDB
    (by decide) (by decide)

/-! ## Lemmas about the seed loader -/

/-- The default admin document inserted by `initialize_data`. -/
def defaultAdminDoc (hp : String → String) (gen : Nat → String) (ns : String) : UserDoc :=
  ⟨gen 0, "admin@shop.com", "Admin", "admin", ns, hp "admin123"⟩

theorem initialize_data_proj (hp : String → String) (gen : Nat → String)
    (ns : String) (st : DBState) :
    (initialize_data hp gen ns st).users =
      (if (find_one_user_by_email st.users "admin@shop.com").isSome then st.users
       else st.users ++ [defaultAdminDoc hp gen ns]) ∧
    (initialize_data hp gen ns st).categories =
      (if st.categories.length = 0 then st.categories ++ baselineCategories gen
       else st.categories) ∧
    (initialize_data hp gen ns st).products =
      (if st.products.length = 0 then st.products ++ baselineProducts gen
       else st.products) := by
  simp only [initialize_data, defaultAdminDoc]
  refine ⟨?_, ?_, ?_⟩ <;> split <;> split <;> split <;> simp_all

theorem initialize_data_admin_present (hp : String → String) (gen : Nat → String)
    (ns : String) (st : DBState) :
    (find_one_user_by_email (initialize_data hp gen ns st).users "admin@shop.com").isSome := by
  rw [(initialize_data_proj hp gen ns st).1]
  split
  · next hsome => exact hsome
  · next hnone =>
    rw [Option.isSome_iff_exists]
    have hmem : defaultAdminDoc hp gen ns ∈ st.users ++ [defaultAdminDoc hp gen ns] := by
      simp
    have hfound : ∃ x ∈ st.users ++ [defaultAdminDoc hp gen ns],
        (fun u => u.email == "admin@shop.com") x = true :=
      ⟨defaultAdminDoc hp gen ns, hmem, by simp [defaultAdminDoc]⟩
    obtain ⟨w, hw⟩ := List.find?_isSome.mpr hfound |> Option.isSome_iff_exists.mp
    exact ⟨w, hw⟩

theorem initialize_data_categories_nonzero (hp : String → String) (gen : Nat → String)
    (ns : String) (st : DBState) :
    (initialize_data hp gen ns st).categories.length ≠ 0 := by
  rw [(initialize_data_proj hp gen ns st).2.1]
  split
  · next hzero => simp [baselineCategories, hzero]
  · next hnz => exact hnz

theorem initialize_data_products_nonzero (hp : String → String) (gen : Nat → String)
    (ns : String) (st : DBState) :
    (initialize_data hp gen ns st).products.length ≠ 0 := by
  rw [(initialize_data_proj hp gen ns st).2.2]
  split
  · next hzero => simp [baselineProducts, hzero]
  · next hnz => exact hnz

theorem initialize_data_of_seeded (hq : String → String) (gen2 : Nat → String)
    (ns2 : String) (s : DBState)
    (hA : (find_one_user_by_email s.users "admin@shop.com").isSome)
    (hB : s.categories.length ≠ 0)
    (hC : s.products.length ≠ 0) :
    initialize_data hq gen2 ns2 s = s := by
  simp only [initialize_data]
  rw [if_pos hA, if_neg hB, if_neg hC]

/-- Claim C9: `initialize_data` is idempotent — a second call (with any uuid
supply, hash and clock) changes nothing, so counts are those of a single call
and data is never duplicated; starting from a store whose email-uniqueness
invariant holds, two calls leave exactly one user with email
"admin@shop.com"; and from the empty store a call seeds exactly one admin
account, 6 baseline categories and 30 baseline products. -/
theorem c9_initialize_data_idempotent (hp hq : String → String)
    (gen gen2 : Nat → String) (ns ns2 : String) (st : DBState) :
    initialize_data hq gen2 ns2 (initialize_data hp gen ns st) =
      initialize_data hp gen ns st ∧
    (st.users.countP (fun u => u.email == "admin@shop.com") ≤ 1 →
      (initialize_data hq gen2 ns2 (initialize_data hp gen ns st)).users.countP
        (fun u => u.email == "admin@shop.com") = 1) ∧
    (initialize_data hp gen ns emptyDB).users.length = 1 ∧
    (initialize_data hp gen ns emptyDB).categories.length = 6 ∧
    (initialize_data hp gen ns emptyDB).products.length = 30 := by
  have hid : initialize_data hq gen2 ns2 (initialize_data hp gen ns st) =
      initialize_data hp gen ns st :=
    initialize_data_of_seeded hq gen2 ns2 (initialize_data hp gen ns st)
      (initialize_data_admin_present hp gen ns st)
      (initialize_data_categories_nonzero hp gen ns st)
      (initialize_data_products_nonzero hp gen ns st)
  refine ⟨hid, ?_, by rfl, by rfl, by rfl⟩
  intro hcount
  rw [hid, (initialize_data_proj hp gen ns st).1]
  split
  · next hsome =>
    have hpos : 0 < st.users.countP (fun u => u.email == "admin@shop.com") := by
      rw [List.countP_pos_iff]
      obtain ⟨w, hw⟩ := Option.isSome_iff_exists.mp hsome
      have hw' : List.find? (fun u => u.email == "admin@shop.com") st.users = some w := hw
      have hpw := List.find?_some hw'
      exact ⟨w, List.mem_of_find?_eq_some hw', hpw⟩
    omega
  · next hnone =>
    have hzero : st.users.countP (fun u => u.email == "admin@shop.com") = 0 := by
      apply countP_eq_zero_of_all_false
      intro x hx
      have hfn : find_one_user_by_email st.users "admin@shop.com" = none :=
        Option.not_isSome_iff_eq_none.mp hnone
      have := List.find?_eq_none.mp hfn x hx
      simpa using this
    rw [List.countP_append, hzero]
    simp [defaultAdminDoc]

/-- Witness for C9: seeding the empty store twice equals seeding it once, and
leaves exactly one "admin@shop.com" account. -/
theorem c9_initialize_data_idempotent_witness :
    initialize_data (fun p => "h:" ++ p) (fun n => toString n) "t"
        (initialize_data (fun p => "h:" ++ p) (fun n => toString n) "t" emptyDB) =
      initialize_data (fun p => "h:" ++ p) (fun n => toString n) "t" emptyDB ∧
    (initialize_data (fun p => "h:" ++ p) (fun n => toString n) "t"
        (initialize_data (fun p => "h:" ++ p) (fun n => toString n) "t" emptyDB)).users.countP
      (fun u => u.email == "admin@shop.com") = 1 := by
  have h := c9_initialize_data_idempotent (fun p => "h:" ++ p) (fun p => "h:" ++ p)
    (fun n => toString n) (fun n => toString n) "t" "t" emptyDB
  exact ⟨h.1, h.2.1 (by decide)⟩

end Shop

